import Mathlib

/-!
Verification development for the Videoflix backend
(video ingestion-to-delivery pipeline and the cookie-JWT gate).

Shallow embedding of the repository code:
  * `content/tasks.py`      — variant-suffix FFmpeg conversion task
  * `content/signals.py`    — post-save enqueue and post-delete cleanup
  * `content/management/commands/generate_hls.py` — HLS rendition job
  * `content/api/views.py`  — delivery layer (list / manifest / segment)
  * `auth/authentication.py` — cookie JWT authentication backend
  * `auth/api/serializers.py`, `auth/api/views.py` — login flow

External collaborators (FFmpeg, Redis queue, simplejwt token decoding,
Django ORM lookups) are modelled as explicit oracle parameters; the
filesystem is modelled as a finite association list of files.
-/

namespace Videoflix

/-! ## Model of the `pathlib.PurePosixPath` operations used by the code

`content/tasks.py` and `content/signals.py` use `Path(source)` together
with `.stem`, `.suffix` and `.with_name(...)` and convert back with
`str(...)`.  We model a POSIX path as a `String`; the final component is
the text after the last `/`.  Python's rules (from `pathlib`):
`suffix` is `name[i:]` where `i = name.rfind('.')` when `0 < i < len - 1`,
else the empty string; `stem` is the corresponding front part. -/

/-- Split a character list at the LAST occurrence of `sep`:
`some (front, back)` with `front ++ [sep] ++ back` the input, or `none`
when `sep` does not occur. -/
def splitAtLastChar (sep : Char) : List Char → Option (List Char × List Char)
  | [] => none
  | c :: cs =>
    match splitAtLastChar sep cs with
    | some (front, back) => some (c :: front, back)
    | none => if c = sep then some ([], cs) else none

/-- The characters of the final path component (`PurePosixPath.name`). -/
def nameChars (p : String) : List Char :=
  match splitAtLastChar '/' p.data with
  | some (_, back) => back
  | none => p.data

/-- The directory part of a path, including the trailing slash
(empty when the path has no slash).  `with_name` keeps this part. -/
def dirPart (p : String) : String :=
  match splitAtLastChar '/' p.data with
  | some (front, _) => String.mk (front ++ ['/'])
  | none => ""

/-- Python's stem/suffix split of a file name: the suffix is the final
dot together with what follows it, provided that dot is neither the
first nor the last character of the name. -/
def splitStemSuffix (nm : List Char) : List Char × List Char :=
  match splitAtLastChar '.' nm with
  | some (front, back) =>
    if front ≠ [] ∧ back ≠ [] then (front, '.' :: back) else (nm, [])
  | none => (nm, [])

/-- `PurePosixPath(p).stem`. -/
def stemOf (p : String) : String := String.mk (splitStemSuffix (nameChars p)).1

/-- `PurePosixPath(p).suffix`. -/
def suffixOf (p : String) : String := String.mk (splitStemSuffix (nameChars p)).2

/-- `str(PurePosixPath(p).with_name(n))`: replace the final component.
(Python raises when `p` has no final component; the call sites always
pass a media file path with a non-empty name.) -/
def withName (p n : String) : String := dirPart p ++ n

/-! ## Python's substring test (`needle in haystack` on `str`) -/

/-- Substring occurrence on character lists. -/
def listSub (needle : List Char) : List Char → Bool
  | [] => needle == []
  | c :: cs => needle.isPrefixOf (c :: cs) || listSub needle cs

/-- Python's `needle in hay` for strings. -/
def strContains (hay needle : String) : Bool := listSub needle.data hay.data

/-! ## `content/tasks.py` — variant-suffix conversion task

The FFmpeg subprocess is an external collaborator; we model one
invocation by an oracle `TaskEncoder` mapping the target file path to
the process exit code. -/

/-- `_build_target_path(source, suffix)`:
`str(src.with_name(f"{src.stem}{suffix}{src.suffix}"))`. -/
def buildTargetPath (source sfx : String) : String :=
  withName source (stemOf source ++ sfx ++ suffixOf source)

/-- The `RuntimeError` message raised by `_run_ffmpeg` in
`content/tasks.py`: `f"FFmpeg failed with code {completed.returncode}"`. -/
def runFfmpegMsg (returncode : Nat) : String :=
  "FFmpeg failed with code " ++ toString returncode

/-- Oracle for one `tasks.py` FFmpeg run: exit code of the process that
writes the given target file. -/
abbrev TaskEncoder := String → Nat

/-- `_run_ffmpeg` in `content/tasks.py`: raise `RuntimeError` on a
non-zero exit code, otherwise succeed. -/
def runFfmpegTask (enc : TaskEncoder) (target : String) : Except String Unit :=
  if enc target ≠ 0 then .error (runFfmpegMsg (enc target)) else .ok ()

/-- `convert_1080p` / `convert_720p` / `convert_480p`: build the target
path, run FFmpeg, return the target path. -/
def convertOne (enc : TaskEncoder) (source sfx : String) : Except String String :=
  let target := buildTargetPath source sfx
  match runFfmpegTask enc target with
  | .error e => .error e
  | .ok _ => .ok target

/-- `convert_videos(source)`: run the 1080p, 720p and 480p conversions
in that order, aborting on the first failure; on success return the
resolution-to-path mapping. -/
def convertVideos (enc : TaskEncoder) (source : String) :
    Except String (List (String × String)) :=
  match convertOne enc source "_1080p" with
  | .error e => .error e
  | .ok p1080 =>
    match convertOne enc source "_720p" with
    | .error e => .error e
    | .ok p720 =>
      match convertOne enc source "_480p" with
      | .error e => .error e
      | .ok p480 => .ok [("1080p", p1080), ("720p", p720), ("480p", p480)]

/-! ## `content/signals.py` -/

/-- The `variant_paths` list built in `auto_delete_file_on_delete`:
the original path plus the three suffix variants
`str(src.with_name(f"{src.stem}_480p{src.suffix}"))` etc. -/
def variantPaths (originalPath : String) : List String :=
  [originalPath,
   withName originalPath (stemOf originalPath ++ "_480p" ++ suffixOf originalPath),
   withName originalPath (stemOf originalPath ++ "_720p" ++ suffixOf originalPath),
   withName originalPath (stemOf originalPath ++ "_1080p" ++ suffixOf originalPath)]

/-- Observable outcome of the `post_save` signal handler. -/
structure SignalResult where
  /-- `queue.enqueue(convert_videos, source_path)` completed. -/
  enqueued : Bool
  /-- `convert_videos` was executed synchronously inside the handler. -/
  ranInline : Bool
  /-- an exception escaped the handler (fails the save call). -/
  raised : Option String
  deriving DecidableEq, Repr

/-- `video_post_save`: on creation with a `video_file`, the handler
calls `queue.enqueue(convert_videos, source_path)` with no surrounding
try/except — an enqueue failure (queue unreachable) propagates out of
the handler; `convert_videos` is never called directly.  The Redis
queue is the oracle `enqueueOutcome`. -/
def videoPostSave (enqueueOutcome : Except String Unit)
    (created hasFile : Bool) : SignalResult :=
  if created && hasFile then
    match enqueueOutcome with
    | .ok _ => { enqueued := true, ranInline := false, raised := none }
    | .error e => { enqueued := false, ranInline := false, raised := some e }
  else
    { enqueued := false, ranInline := false, raised := none }

/-- Filesystem for the media tree keyed by string paths. -/
abbrev SFS := List (String × String)

/-- `os.path.isfile` on the media-tree model. -/
def SFS.isFile (fs : SFS) (p : String) : Bool := fs.any fun e => e.1 == p

/-- `os.remove`: raises (`FileNotFoundError`) when the path is absent. -/
def SFS.osRemove (fs : SFS) (p : String) : Except String SFS :=
  if fs.isFile p then .ok (fs.filter fun e => !(e.1 == p))
  else .error "FileNotFoundError"

/-- The cleanup loop of `auto_delete_file_on_delete`: for each candidate
path, remove it when `os.path.isfile` holds, otherwise skip (logged,
not an error). -/
def cleanupLoop : List String → SFS → Except String SFS
  | [], fs => .ok fs
  | p :: rest, fs =>
    if fs.isFile p then
      match fs.osRemove p with
      | .error e => .error e
      | .ok fs' => cleanupLoop rest fs'
    else cleanupLoop rest fs

/-- `auto_delete_file_on_delete`: when the deleted record has a
`video_file`, delete the original file and the three suffix variants,
skipping paths that are not present. -/
def autoDeleteFileOnDelete (fs : SFS) (hasFile : Bool)
    (originalPath : String) : Except String SFS :=
  if !hasFile then .ok fs
  else cleanupLoop (variantPaths originalPath) fs

/-! ## Filesystem model for the HLS rendition tree

Paths are component lists (relative to the filesystem root); the
filesystem is the finite set of regular files with their contents.
Directories are implicit (`mkdir` is a no-op on this model). -/

/-- A path as a list of components. -/
abbrev CPath := List String

/-- Filesystem: files with contents. -/
abbrev FS := List (CPath × String)

/-- `Path.exists` / `Path.is_file` for a file path. -/
def FS.hasFile (fs : FS) (p : CPath) : Bool := fs.any fun e => e.1 == p

/-- Write (create or replace) one file. -/
def FS.writeFile (fs : FS) (p : CPath) (c : String) : FS :=
  (p, c) :: fs.filter fun e => !(e.1 == p)

/-- Apply a list of file writes in order. -/
def FS.applyWrites (fs : FS) (ws : List (CPath × String)) : FS :=
  ws.foldl (fun acc w => acc.writeFile w.1 w.2) fs

/-- `p` is a direct child of directory `dir` (what `dir.glob("*")`
matches in a tree of regular files). -/
def isDirectChild (dir p : CPath) : Bool :=
  p.length == dir.length + 1 && p.take dir.length == dir

/-! ## `content/management/commands/generate_hls.py` -/

/-- `Command.RESOLUTIONS = [("480p", 480), ("720p", 720), ("1080p", 1080)]`. -/
def RESOLUTIONS : List (String × Nat) := [("480p", 480), ("720p", 720), ("1080p", 1080)]

/-- `hls_root / str(video.id) / label` — the per-rendition output dir. -/
def rendDir (root : CPath) (vid : Nat) (label : String) : CPath :=
  root ++ [toString vid, label]

/-- `out_dir / "index.m3u8"` — the rendition playlist path. -/
def rendPlaylist (root : CPath) (vid : Nat) (label : String) : CPath :=
  rendDir root vid label ++ ["index.m3u8"]

/-- One ffmpeg run of the HLS command, as seen by the job: the files
the process wrote (also present on failure: partial output) and its
exit code.  Oracle indexed by video id, label and target height. -/
structure EncRun where
  exitCode : Nat
  writes : List (CPath × String)
  deriving DecidableEq, Repr

/-- Encoder oracle for `generate_hls`. -/
abbrev HlsEncoder := Nat → String → Nat → EncRun

/-- `Command._clean_output_dir`: `out_dir.glob("*")` + `unlink()` —
removes the direct-child files of the directory (`unlink` on a
subdirectory raises and is swallowed by `continue`). -/
def cleanOutputDir (fs : FS) (dir : CPath) : FS :=
  fs.filter fun e => !(isDirectChild dir e.1)

/-- `Command._prepare_output_dir`: skip (return `false`) when the
playlist exists and overwrite was not requested; purge the directory
first when the playlist exists and overwrite was requested. -/
def prepareOutputDir (fs : FS) (dir playlist : CPath) (overwrite : Bool) :
    FS × Bool :=
  if fs.hasFile playlist && !overwrite then (fs, false)
  else if fs.hasFile playlist && overwrite then (cleanOutputDir fs dir, true)
  else (fs, true)

/-- The `CommandError` message raised by `Command._run_ffmpeg`:
`f"ffmpeg failed for video {video.id} ({label}): {exc}"` (the
`CalledProcessError` text is abstracted to the exit status). -/
def commandErrorMsg (vid : Nat) (label : String) (code : Nat) : String :=
  "ffmpeg failed for video " ++ toString vid ++ " (" ++ label ++
    "): exit status " ++ toString code

/-- Result of `Command._generate_rendition` for one rendition. -/
structure RenditionOutcome where
  fs : FS
  /-- ffmpeg was invoked for this rendition. -/
  encoderRan : Bool
  /-- `CommandError` raised (aborts the whole command). -/
  error : Option String
  deriving DecidableEq, Repr

/-- `Command._generate_rendition`: compute the output dir and playlist
path, `mkdir` (no-op on the file model), consult
`_prepare_output_dir`, then run ffmpeg; a non-zero exit raises
`CommandError` while keeping whatever the process wrote. -/
def generateRendition (enc : HlsEncoder) (root : CPath) (fs : FS)
    (vid : Nat) (label : String) (height : Nat) (overwrite : Bool) :
    RenditionOutcome :=
  let dir := rendDir root vid label
  let playlist := rendPlaylist root vid label
  let prep := prepareOutputDir fs dir playlist overwrite
  if !prep.2 then { fs := prep.1, encoderRan := false, error := none }
  else
    let r := enc vid label height
    let fs2 := prep.1.applyWrites r.writes
    if r.exitCode ≠ 0 then
      { fs := fs2, encoderRan := true,
        error := some (commandErrorMsg vid label r.exitCode) }
    else { fs := fs2, encoderRan := true, error := none }

/-- The rendition loop of `Command._process_video`: process the
resolutions in order; a raised `CommandError` aborts the remaining
renditions.  Returns the final filesystem, the labels for which ffmpeg
ran, and the error if the run aborted. -/
def processRenditions (enc : HlsEncoder) (root : CPath) (vid : Nat)
    (overwrite : Bool) : List (String × Nat) → FS →
    FS × List String × Option String
  | [], fs => (fs, [], none)
  | (label, height) :: rest, fs =>
    let r := generateRendition enc root fs vid label height overwrite
    match r.error with
    | some e => (r.fs, if r.encoderRan then [label] else [], some e)
    | none =>
      let rec' := processRenditions enc root vid overwrite rest r.fs
      (rec'.1, (if r.encoderRan then [label] else []) ++ rec'.2.1, rec'.2.2)

/-- `Command._process_video` restricted to one video: run all three
renditions of `RESOLUTIONS` sequentially. -/
def processVideo (enc : HlsEncoder) (root : CPath) (vid : Nat)
    (overwrite : Bool) (fs : FS) : FS × List String × Option String :=
  processRenditions enc root vid overwrite RESOLUTIONS fs

/-! ## `auth/api/views.py` — `_enqueue_or_run` (email jobs only) -/

/-- `_enqueue_or_run(job, ...)`: try to enqueue via RQ; on any
exception run the job inline.  Returns `(enqueued, ranInline)`. -/
def enqueueOrRun (enqueueOutcome : Except String Unit) : Bool × Bool :=
  match enqueueOutcome with
  | .ok _ => (true, false)
  | .error _ => (false, true)

/-! ## `content/api/views.py` — delivery layer

The simplejwt `AccessToken` constructor is the oracle
`validateAccess : String → Option Nat`: `none` models a raised
`TokenError` (malformed / expired / bad signature), `some uid` a valid
token whose `user_id` claim is `uid`.  The user table is the list of
`(id, is_active)` rows; the video table is the list of existing ids. -/

/-- The relevant parts of an inbound HTTP request. -/
structure HttpReq where
  /-- raw token carried by the `Authorization: Bearer` header, if any. -/
  authHeader : Option String
  /-- value of the `access_token` cookie, if present. -/
  accessCookie : Option String
  deriving DecidableEq, Repr

/-- `ALLOWED_RENDITIONS = {"480p", "720p", "1080p"}`. -/
def ALLOWED_RENDITIONS : List String := ["480p", "720p", "1080p"]

/-- `CookieJWTAuthMixin.get_authenticated_user`: read only the
`access_token` cookie (empty string is falsy), validate it, then
`User.objects.filter(pk=user_id, is_active=True).first()`. -/
def getAuthenticatedUser (validateAccess : String → Option Nat)
    (users : List (Nat × Bool)) (req : HttpReq) : Option Nat :=
  match req.accessCookie with
  | none => none
  | some t =>
    if t = "" then none
    else
      match validateAccess t with
      | none => none
      | some uid =>
        if users.any (fun u => u.1 == uid && u.2) then some uid else none

/-- Response outcome of a delivery view (`badRequest` is the DRF
validation-error outcome, never produced by these views). -/
inductive Resp where
  | ok (content : String) (contentType : String)
  | listOk (ids : List Nat)
  | notFound
  | unauthorized
  | badRequest
  deriving DecidableEq, Repr

/-- `_file_or_404`: check `path.is_file()` and stream the file; the
returned trace records the filesystem paths the view touched. -/
def fileOr404 (fs : FS) (path : CPath) (ctype : String) : Resp × List CPath :=
  match fs.find? (fun e => e.1 == path) with
  | some e => (.ok e.2 ctype, [path])
  | none => (.notFound, [path])

/-- `_validate_segment_name` rejects (`Http404`) exactly when the
segment contains `/` or `..`. -/
def segmentNameBad (segment : String) : Bool :=
  strContains segment "/" || strContains segment ".."

/-- `VideoListView.get`: authenticate from the cookie, then list all
videos (a database read; the trace of filesystem accesses stays
empty). -/
def listViewGet (validateAccess : String → Option Nat)
    (users : List (Nat × Bool)) (videos : List Nat) (req : HttpReq) :
    Resp × List CPath :=
  match getAuthenticatedUser validateAccess users req with
  | none => (.unauthorized, [])
  | some _ => (.listOk videos, [])

/-- `VideoHLSManifestView.get`: cookie auth, then `_ensure_video_exists`
(database), `_validate_resolution`, and only then the filesystem. -/
def manifestViewGet (validateAccess : String → Option Nat)
    (users : List (Nat × Bool)) (videos : List Nat) (fs : FS)
    (root : CPath) (req : HttpReq) (movieId : Nat) (resolution : String) :
    Resp × List CPath :=
  match getAuthenticatedUser validateAccess users req with
  | none => (.unauthorized, [])
  | some _ =>
    if !videos.contains movieId then (.notFound, [])
    else if !ALLOWED_RENDITIONS.contains resolution then (.notFound, [])
    else fileOr404 fs (rendPlaylist root movieId resolution)
      "application/vnd.apple.mpegurl"

/-- `VideoHLSSegmentView.get`: cookie auth, `_ensure_video_exists`,
`_validate_resolution`, `_validate_segment_name`, then the filesystem. -/
def segmentViewGet (validateAccess : String → Option Nat)
    (users : List (Nat × Bool)) (videos : List Nat) (fs : FS)
    (root : CPath) (req : HttpReq) (movieId : Nat) (resolution : String)
    (segment : String) : Resp × List CPath :=
  match getAuthenticatedUser validateAccess users req with
  | none => (.unauthorized, [])
  | some _ =>
    if !videos.contains movieId then (.notFound, [])
    else if !ALLOWED_RENDITIONS.contains resolution then (.notFound, [])
    else if segmentNameBad segment then (.notFound, [])
    else fileOr404 fs (rendDir root movieId resolution ++ [segment])
      "video/MP2T"

/-! ## `auth/authentication.py` — the configured credential gate

`REST_FRAMEWORK.DEFAULT_AUTHENTICATION_CLASSES` in `core/settings.py`
selects `auth.authentication.CookieJWTAuthentication`.  Its
`get_validated_token` call is wrapped in `try/except Exception`, so any
decode / signature / expiry failure yields `None`; the subsequent
`get_user` lookup (simplejwt) raises `AuthenticationFailed` when the
subject record is missing. -/

/-- A user record as the gate sees it. -/
structure AuthUser where
  id : Nat
  isActive : Bool
  deriving DecidableEq, Repr

/-- Outcome of `CookieJWTAuthentication.authenticate`. -/
inductive AuthResult where
  /-- returned `None` — "no identity", not an error. -/
  | noIdentity
  /-- returned `(user, token)`. -/
  | identity (u : AuthUser)
  /-- an exception escaped to the framework layer. -/
  | raised (msg : String)
  deriving DecidableEq, Repr

/-- The raw-credential extraction of `authenticate`:
`raw = get_raw_token(header) if header else None` then
`raw = raw or request.COOKIES.get("access_token")` (Python `or`: an
empty header token falls back to the cookie). -/
def rawCredential (req : HttpReq) : Option String :=
  match req.authHeader with
  | some s => if s = "" then req.accessCookie else some s
  | none => req.accessCookie

/-- `CookieJWTAuthentication.authenticate` from `auth/authentication.py`:
extract the raw credential, return `None` when absent, validate inside
`try/except Exception` (failure → `None`), then resolve the user
(`lookupUser uid = none` models the `AuthenticationFailed` raised by
simplejwt's `get_user` for a missing record) and drop inactive users. -/
def cookieJWTAuthenticate (validateToken : String → Option Nat)
    (lookupUser : Nat → Option AuthUser) (req : HttpReq) : AuthResult :=
  match rawCredential req with
  | none => .noIdentity
  | some raw =>
    match validateToken raw with
    | none => .noIdentity
    | some uid =>
      match lookupUser uid with
      | none => .raised "User not found"
      | some u => if u.isActive then .identity u else .noIdentity

/-! ## Login flow — `auth/api/serializers.py` and `auth/api/views.py` -/

/-- A stored account row. -/
structure Account where
  email : String
  password : String
  isActive : Bool
  deriving DecidableEq, Repr

/-- Django's `authenticate()` with the default backend configuration
(`core/settings.py` sets no `AUTHENTICATION_BACKENDS`, so
`django.contrib.auth.backends.ModelBackend` applies): find the user by
username, check the password, and reject the user unless
`user_can_authenticate` holds, i.e. the account is active. -/
def djangoAuthenticate (accounts : List Account) (email password : String) :
    Option Account :=
  match accounts.find? (fun a => a.email == email) with
  | none => none
  | some a =>
    if a.password == password && a.isActive then some a else none

/-- Result of `LoginSerializer.validate`. -/
inductive LoginValidation where
  | ok (a : Account)
  | err (detail : String)
  deriving DecidableEq, Repr

/-- `LoginSerializer.validate`: call `authenticate`; `None` yields the
generic detail, an inactive user the activation detail. -/
def loginSerializerValidate (accounts : List Account)
    (email password : String) : LoginValidation :=
  match djangoAuthenticate accounts email password with
  | none => .err "Invalid email or password."
  | some u =>
    if !u.isActive then .err "Account is not activated."
    else .ok u

/-- `GENERIC_INPUT_ERROR` in `auth/api/views.py`. -/
def GENERIC_INPUT_ERROR : String := "Please check your inputs and try again."

/-- ASCII lowering, modelling `str.lower()` on the ASCII messages the
login flow produces. -/
def charLower (c : Char) : Char :=
  if 'A' ≤ c && c ≤ 'Z' then Char.ofNat (c.toNat + 32) else c

/-- `detail.lower()` for the ASCII detail strings. -/
def strLower (s : String) : String := String.mk (s.data.map charLower)

/-- `_login_error_response`: message is the serializer detail (or the
generic text); status is 403 when the detail mentions "activate",
otherwise 401. -/
def loginErrorResponse (detail : Option String) : Nat × String :=
  match detail with
  | none => (401, GENERIC_INPUT_ERROR)
  | some d =>
    (if strContains (strLower d) "activate" then 403 else 401, d)

/-- `LoginView.post`: run the serializer; on failure answer through
`_login_error_response`, on success answer 200. -/
def loginViewPost (accounts : List Account) (email password : String) :
    Nat × String :=
  match loginSerializerValidate accounts email password with
  | .err d => loginErrorResponse (some d)
  | .ok _ => (200, "Login successful")

end Videoflix

open Videoflix

/-! ## Shared lemmas -/

/-- `listSub` decides list-infix occurrence. -/
theorem listSub_correct (n h : List Char) : listSub n h = true ↔ n <:+: h := by
  induction h with
  | nil => simp [listSub, List.infix_nil]
  | cons c cs ih =>
    simp [listSub, Bool.or_eq_true, List.isPrefixOf_iff_prefix, ih,
      List.infix_cons_iff]

/-- A string whose character data splits around `needle` contains it. -/
theorem strContains_of_data (hay pre needle post : String)
    (h : hay.data = pre.data ++ needle.data ++ post.data) :
    strContains hay needle = true := by
  unfold strContains
  rw [h]
  exact (listSub_correct _ _).2 ⟨pre.data, post.data, rfl⟩

/-- The cleanup loop of `auto_delete_file_on_delete` never raises and
removes exactly the present files among its candidate paths. -/
theorem cleanupLoop_eq (ps : List String) (fs : SFS) :
    cleanupLoop ps fs =
      .ok (fs.filter fun e => !(ps.any fun p => e.1 == p)) := by
  induction ps generalizing fs with
  | nil => simp [cleanupLoop]
  | cons p rest ih =>
    by_cases hp : fs.isFile p = true
    · have hrem : fs.osRemove p = .ok (fs.filter fun e => !(e.1 == p)) := by
        unfold SFS.osRemove
        rw [if_pos hp]
      rw [cleanupLoop, if_pos hp, hrem]
      show cleanupLoop rest (fs.filter fun e => !(e.1 == p)) = _
      rw [ih]
      congr 1
      rw [List.filter_filter]
      apply List.filter_congr
      intro a _
      simp [List.any_cons, Bool.not_or, Bool.and_comm]
    · have hp' : fs.isFile p = false := by
        revert hp
        cases fs.isFile p <;> simp
      rw [cleanupLoop, if_neg (by simp [hp']), ih]
      congr 1
      apply List.filter_congr
      intro a ha
      have hne : (a.1 == p) = false := by
        have := (by simpa [SFS.isFile, List.any_eq_true] using hp' :
          ∀ e ∈ fs, ¬ (e.1 == p) = true)
        simpa using this a ha
      simp [List.any_cons, hne]

/-! ## Claim theorems -/

/-- C10: for every source file path, the deletion cleanup targets
exactly the original path plus the three paths the variant-suffix
transcode task can generate — `_build_target_path(source, "_480p")`
etc. — each of which is the same directory and extension with the
suffix appended to the stem. -/
theorem cleanup_generator_path_agreement (source : String) :
    variantPaths source =
      [source, buildTargetPath source "_480p",
       buildTargetPath source "_720p", buildTargetPath source "_1080p"] ∧
    ∀ sfx, buildTargetPath source sfx =
      dirPart source ++ (stemOf source ++ sfx ++ suffixOf source) := by
  exact ⟨rfl, fun _ => rfl⟩

/-- C2 counterexample: with the work queue unreachable, creating a
video with a source file makes `video_post_save` propagate the enqueue
error out of the save call — the transcode job is not executed inline. -/
theorem ingestion_no_inline_fallback_cex :
    videoPostSave (.error "redis unreachable") true true =
      { enqueued := false, ranInline := false,
        raised := some "redis unreachable" } ∧
    (videoPostSave (.error "redis unreachable") true true).ranInline = false := by
  exact ⟨rfl, rfl⟩

/-- C2 amended: on creation with a source file the transcode job is
enqueued when the queue is reachable; when the queue is unreachable the
signal raises (the creation fails) and the job is never run inline.
The enqueue-or-run-inline fallback exists only in the auth email path
(`_enqueue_or_run`). -/
theorem ingestion_enqueue_and_email_fallback :
    (videoPostSave (.ok ()) true true =
      { enqueued := true, ranInline := false, raised := none }) ∧
    (∀ e : String, videoPostSave (.error e) true true =
      { enqueued := false, ranInline := false, raised := some e }) ∧
    (∀ out : Except String Unit, ∀ created : Bool,
      videoPostSave out created false =
        { enqueued := false, ranInline := false, raised := none }) ∧
    (∀ e : String, enqueueOrRun (.error e) = (false, true)) ∧
    (enqueueOrRun (.ok ()) = (true, false)) := by
  refine ⟨rfl, fun e => rfl, fun out created => ?_, fun e => rfl, rfl⟩
  cases created <;> rfl

/-- C3 counterexample: deleting video id 7 leaves the generated HLS
rendition artifact `/media/hls/7/480p/index.m3u8` on disk — the
cleanup only targets the original file and the three suffix variants,
not every derived variant for the video id. -/
theorem deletion_cleanup_hls_survives_cex :
    autoDeleteFileOnDelete
      [("/media/videos/movie.mp4", "src"),
       ("/media/hls/7/480p/index.m3u8", "hls playlist")]
      true "/media/videos/movie.mp4" =
      .ok [("/media/hls/7/480p/index.m3u8", "hls playlist")] := by
  rfl

/-- C3 amended: on deletion with a source file reference, the cleanup
removes exactly the files among the original path and the three
variant-suffix paths that are present, never raising for a missing
one; with no source file it does nothing. -/
theorem deletion_cleanup_variant_scope (fs : SFS) (orig : String) :
    autoDeleteFileOnDelete fs true orig =
      .ok (fs.filter fun e => !((variantPaths orig).any fun p => e.1 == p)) ∧
    autoDeleteFileOnDelete fs false orig = .ok fs := by
  constructor
  · unfold autoDeleteFileOnDelete
    simpa using cleanupLoop_eq (variantPaths orig) fs
  · rfl

/-- C7 counterexample: when the background task `convert_videos` (the
job the ingestion signal enqueues) hits a non-zero encoder exit, the
whole job aborts with `RuntimeError("FFmpeg failed with code 1")` — a
message that identifies neither the video id (the task is not even
given one, only the source path) nor the failing resolution. -/
theorem encoder_failure_task_message_cex :
    convertVideos (fun _ => 1) "/media/videos/movie.mp4" =
      .error "FFmpeg failed with code 1" ∧
    strContains "FFmpeg failed with code 1" "1080p" = false ∧
    strContains "FFmpeg failed with code 1" "7" = false ∧
    strContains "FFmpeg failed with code 1" "video" = false := by
  refine ⟨by rfl, by decide, by decide, by decide⟩

/-- C7 amended: in the HLS management command, a non-zero encoder exit
for a resolution aborts the whole run with a `CommandError` whose
message names both the video id and the failing resolution label, and
the partial output that ffmpeg wrote for that resolution stays on disk
(no rollback); the background task's error names neither. -/
theorem encoder_failure_command_semantics (enc : HlsEncoder) (root : CPath)
    (fs : FS) (vid : Nat) (label : String) (height : Nat)
    (rest : List (String × Nat))
    (hnp : fs.hasFile (rendPlaylist root vid label) = false)
    (hfail : (enc vid label height).exitCode ≠ 0) :
    processRenditions enc root vid false ((label, height) :: rest) fs =
      (fs.applyWrites (enc vid label height).writes, [label],
        some (commandErrorMsg vid label (enc vid label height).exitCode)) ∧
    strContains (commandErrorMsg vid label (enc vid label height).exitCode)
      (toString vid) = true ∧
    strContains (commandErrorMsg vid label (enc vid label height).exitCode)
      label = true := by
  refine ⟨?_, ?_, ?_⟩
  · simp [processRenditions, generateRendition, prepareOutputDir, hnp, hfail]
  · apply strContains_of_data _ "ffmpeg failed for video "
      _ (" (" ++ label ++ "): exit status " ++
        toString (enc vid label height).exitCode)
    simp [commandErrorMsg, String.data_append, List.append_assoc]
  · apply strContains_of_data _ ("ffmpeg failed for video " ++ toString vid ++ " (")
      _ ("): exit status " ++ toString (enc vid label height).exitCode)
    simp [commandErrorMsg, String.data_append, List.append_assoc]

/-- C1: re-invoking the HLS transcode for a video whose three
renditions already have their playlist file, without `--overwrite`,
performs no encoder work and leaves the filesystem exactly as it was;
with `--overwrite`, a rendition whose playlist exists has its
directory's direct contents purged first and is then regenerated from
the encoder's writes. -/
theorem transcode_idempotence (enc : HlsEncoder) (root : CPath) (fs : FS)
    (vid : Nat)
    (h480 : fs.hasFile (rendPlaylist root vid "480p") = true)
    (h720 : fs.hasFile (rendPlaylist root vid "720p") = true)
    (h1080 : fs.hasFile (rendPlaylist root vid "1080p") = true) :
    processVideo enc root vid false fs = (fs, [], none) ∧
    (∀ label height, fs.hasFile (rendPlaylist root vid label) = true →
      (generateRendition enc root fs vid label height true).encoderRan = true ∧
      (generateRendition enc root fs vid label height true).fs =
        (cleanOutputDir fs (rendDir root vid label)).applyWrites
          (enc vid label height).writes) := by
  constructor
  · simp [processVideo, RESOLUTIONS, processRenditions, generateRendition,
      prepareOutputDir, h480, h720, h1080]
  · intro label height h
    have hprep : prepareOutputDir fs (rendDir root vid label)
        (rendPlaylist root vid label) true =
        (cleanOutputDir fs (rendDir root vid label), true) := by
      simp [prepareOutputDir, h]
    by_cases hc : (enc vid label height).exitCode = 0 <;>
      exact ⟨by simp [generateRendition, hprep, hc],
             by simp [generateRendition, hprep, hc]⟩

/-- C1 witness: a concrete filesystem with all three playlists for
video 7 passes through the no-overwrite run unchanged. -/
theorem transcode_idempotence_witness :
    processVideo (fun _ _ _ => { exitCode := 0, writes := [] }) ["hls"] 7 false
      [(["hls", "7", "480p", "index.m3u8"], "p480"),
       (["hls", "7", "720p", "index.m3u8"], "p720"),
       (["hls", "7", "1080p", "index.m3u8"], "p1080")] =
      ([(["hls", "7", "480p", "index.m3u8"], "p480"),
        (["hls", "7", "720p", "index.m3u8"], "p720"),
        (["hls", "7", "1080p", "index.m3u8"], "p1080")], [], none) :=
  (transcode_idempotence (fun _ _ _ => { exitCode := 0, writes := [] })
    ["hls"]
    [(["hls", "7", "480p", "index.m3u8"], "p480"),
     (["hls", "7", "720p", "index.m3u8"], "p720"),
     (["hls", "7", "1080p", "index.m3u8"], "p1080")] 7
    (by decide) (by decide) (by decide)).1

/-- C7 amended witness: for video 7 and resolution 480p, the
`CommandError` message contains the id and the label. -/
theorem encoder_failure_command_semantics_witness :
    strContains (commandErrorMsg 7 "480p" 1) (toString 7) = true ∧
    strContains (commandErrorMsg 7 "480p" 1) "480p" = true := by
  have h := encoder_failure_command_semantics
    (fun _ _ _ => { exitCode := 1, writes := [] }) ["hls"] [] 7 "480p" 480 []
    (by decide) (by decide)
  exact ⟨h.2.1, h.2.2⟩

/-- C4: the configured credential gate (`auth.authentication`, selected
by `core/settings.py`) returns "no identity" — and raises nothing — for
every request whose extracted raw credential (bearer header or
`access_token` cookie) fails decode/signature/expiry validation, and
likewise when no credential is present at all. -/
theorem token_gate_total_on_invalid (validateToken : String → Option Nat)
    (lookupUser : Nat → Option AuthUser) (req : HttpReq) (raw : String)
    (hraw : rawCredential req = some raw)
    (hbad : validateToken raw = none) :
    cookieJWTAuthenticate validateToken lookupUser req =
      AuthResult.noIdentity ∧
    ∀ req2 : HttpReq, rawCredential req2 = none →
      cookieJWTAuthenticate validateToken lookupUser req2 =
        AuthResult.noIdentity := by
  constructor
  · simp [cookieJWTAuthenticate, hraw, hbad]
  · intro req2 h2
    simp [cookieJWTAuthenticate, h2]

/-- C4 witness: an unparseable cookie credential yields "no identity". -/
theorem token_gate_total_on_invalid_witness :
    cookieJWTAuthenticate (fun _ => none) (fun _ => none)
      { authHeader := none, accessCookie := some "not-a-jwt" } =
      AuthResult.noIdentity :=
  (token_gate_total_on_invalid (fun _ => none) (fun _ => none)
    { authHeader := none, accessCookie := some "not-a-jwt" } "not-a-jwt"
    rfl rfl).1

/-- C5: a segment request whose filename contains `/` or `..` touches
no filesystem path at all, and (when the request is authenticated) is
answered not-found. -/
theorem segment_traversal_defense (validateAccess : String → Option Nat)
    (users : List (Nat × Bool)) (videos : List Nat) (fs : FS) (root : CPath)
    (req : HttpReq) (movieId : Nat) (resolution segment : String)
    (hbad : segmentNameBad segment = true) :
    (segmentViewGet validateAccess users videos fs root req movieId resolution
      segment).2 = [] ∧
    (∀ uid, getAuthenticatedUser validateAccess users req = some uid →
      (segmentViewGet validateAccess users videos fs root req movieId
        resolution segment).1 = Resp.notFound) := by
  constructor
  · cases hA : getAuthenticatedUser validateAccess users req with
    | none => simp [segmentViewGet, hA]
    | some u =>
      by_cases h1 : videos.contains movieId <;>
        by_cases h2 : ALLOWED_RENDITIONS.contains resolution <;>
          simp [segmentViewGet, hA, h1, h2, hbad]
  · intro uid hA
    by_cases h1 : videos.contains movieId <;>
      by_cases h2 : ALLOWED_RENDITIONS.contains resolution <;>
        simp [segmentViewGet, hA, h1, h2, hbad]

/-- C5 witness: a traversal attempt on video 7 by an authenticated
client is a not-found with an empty filesystem trace. -/
theorem segment_traversal_defense_witness :
    segmentNameBad "../../secret.ts" = true ∧
    (segmentViewGet (fun _ => some 1) [(1, true)] [7] [] ["hls"]
      { authHeader := none, accessCookie := some "tok" } 7 "480p"
      "../../secret.ts").2 = [] ∧
    (segmentViewGet (fun _ => some 1) [(1, true)] [7] [] ["hls"]
      { authHeader := none, accessCookie := some "tok" } 7 "480p"
      "../../secret.ts").1 = Resp.notFound := by
  have h := segment_traversal_defense (fun _ => some 1) [(1, true)] [7] []
    ["hls"] { authHeader := none, accessCookie := some "tok" } 7 "480p"
    "../../secret.ts" (by decide)
  exact ⟨by decide, h.1, h.2 1 (by decide)⟩

/-- C6: a delivery request (list, manifest or segment) with no resolved
identity from the `access_token` cookie is answered with the explicit
unauthenticated outcome and an empty filesystem trace; the delivery
authentication reads only the cookie — it is invariant in the bearer
header — and an absent cookie never resolves an identity. -/
theorem delivery_identity_gate (validateAccess : String → Option Nat)
    (users : List (Nat × Bool)) (videos : List Nat) (fs : FS) (root : CPath)
    (req : HttpReq) (movieId : Nat) (resolution segment : String)
    (hnone : getAuthenticatedUser validateAccess users req = none) :
    listViewGet validateAccess users videos req = (Resp.unauthorized, []) ∧
    manifestViewGet validateAccess users videos fs root req movieId
      resolution = (Resp.unauthorized, []) ∧
    segmentViewGet validateAccess users videos fs root req movieId resolution
      segment = (Resp.unauthorized, []) ∧
    (∀ hdr1 hdr2 cookie,
      getAuthenticatedUser validateAccess users
        { authHeader := hdr1, accessCookie := cookie } =
      getAuthenticatedUser validateAccess users
        { authHeader := hdr2, accessCookie := cookie }) ∧
    (∀ hdr, getAuthenticatedUser validateAccess users
      { authHeader := hdr, accessCookie := none } = none) := by
  refine ⟨?_, ?_, ?_, fun hdr1 hdr2 cookie => rfl, fun hdr => rfl⟩ <;>
    simp [listViewGet, manifestViewGet, segmentViewGet, hnone]

/-- C6 witness: a request carrying only a bearer header (no cookie) is
rejected as unauthenticated by the list endpoint. -/
theorem delivery_identity_gate_witness :
    listViewGet (fun _ => some 1) [(1, true)] [7]
      { authHeader := some "Bearer tok", accessCookie := none } =
      (Resp.unauthorized, []) :=
  (delivery_identity_gate (fun _ => some 1) [(1, true)] [7] [] ["hls"]
    { authHeader := some "Bearer tok", accessCookie := none } 7 "480p"
    "000.ts" rfl).1

/-- C9: a resolution label passes the delivery gate exactly when it is
one of the strings "480p", "720p", "1080p" (string equality, hence
case-sensitive); any other label makes both the manifest and the
segment view answer not-found — an `Http404`, not a validation error. -/
theorem resolution_label_gate (validateAccess : String → Option Nat)
    (users : List (Nat × Bool)) (videos : List Nat) (fs : FS) (root : CPath)
    (req : HttpReq) (movieId uid : Nat) (segment : String)
    (hA : getAuthenticatedUser validateAccess users req = some uid) :
    (∀ r : String, ALLOWED_RENDITIONS.contains r = true ↔
      (r = "480p" ∨ r = "720p" ∨ r = "1080p")) ∧
    (∀ r : String, ALLOWED_RENDITIONS.contains r = false →
      (manifestViewGet validateAccess users videos fs root req movieId r).1 =
        Resp.notFound ∧
      (manifestViewGet validateAccess users videos fs root req movieId r).1 ≠
        Resp.badRequest ∧
      (segmentViewGet validateAccess users videos fs root req movieId r
        segment).1 = Resp.notFound) := by
  constructor
  · intro r
    simp [ALLOWED_RENDITIONS, List.contains_cons, List.contains_nil,
      Bool.or_eq_true, beq_iff_eq]
  · intro r hr
    have hr' : ¬ r ∈ ALLOWED_RENDITIONS := by simpa using hr
    refine ⟨?_, ?_, ?_⟩ <;>
      · by_cases h1 : movieId ∈ videos <;>
          simp [manifestViewGet, segmentViewGet, hA, h1, hr']

/-- C9 witness: for an authenticated request on existing video 7, the
labels "4k" and "720P" are rejected as not-found while "720p" is in the
allowed set. -/
theorem resolution_label_gate_witness :
    ALLOWED_RENDITIONS.contains "720p" = true ∧
    ALLOWED_RENDITIONS.contains "720P" = false ∧
    (manifestViewGet (fun _ => some 1) [(1, true)] [7] [] ["hls"]
      { authHeader := none, accessCookie := some "tok" } 7 "4k").1 =
      Resp.notFound ∧
    (segmentViewGet (fun _ => some 1) [(1, true)] [7] [] ["hls"]
      { authHeader := none, accessCookie := some "tok" } 7 "720P"
      "000.ts").1 = Resp.notFound := by
  have h := resolution_label_gate (fun _ => some 1) [(1, true)] [7] [] ["hls"]
    { authHeader := none, accessCookie := some "tok" } 7 1 "000.ts" (by decide)
  exact ⟨by decide, by decide, (h.2 "4k" (by decide)).1,
    (h.2 "720P" (by decide)).2.2⟩

/-- C8: observed login behaviour at the failing input — an existing but
inactive account presenting its correct credentials.  Because Django's
default `ModelBackend` refuses inactive users inside `authenticate()`,
the serializer reports the generic "Invalid email or password." detail
and `LoginView` answers 401; the serializer's own
"Account is not activated." branch, which `_login_error_response` would
map to 403 with the activation hint, is never reached. -/
theorem login_inactive_observed_behavior :
    loginViewPost
      [{ email := "user@example.com", password := "secret",
         isActive := false }]
      "user@example.com" "secret" = (401, "Invalid email or password.") ∧
    loginSerializerValidate
      [{ email := "user@example.com", password := "secret",
         isActive := false }]
      "user@example.com" "secret" =
      LoginValidation.err "Invalid email or password." ∧
    loginErrorResponse (some "Account is not activated.") =
      (403, "Account is not activated.") ∧
    loginErrorResponse (some "Invalid email or password.") =
      (401, "Invalid email or password.") := by
  refine ⟨?_, ?_, ?_, ?_⟩ <;> decide
